import Mathlib

/-!
Verification development for the `LanguageServerProxy` of the repository
(`lsp_proxy`-style connection proxy for a JSON-RPC language-analysis backend).

The TypeScript class is embedded shallowly: its mutable fields become a
`ProxyState` record, each method becomes a state-transition function that
additionally returns the list of observable side effects it performs (socket
I/O, JSON-RPC sends, event-emitter emissions, log calls), and the outcome of
each `await`ed promise is supplied by an environment `Env` so that the purely
synchronous control flow of the methods is modelled exactly as written.
-/

namespace LspProxy

/-- JavaScript runtime values, as far as the proxy manipulates them:
`null`, booleans, numbers, strings, arrays and plain objects.
Used for request/response payloads and for the `any`-typed error slot. -/
inductive JSVal where
  | null : JSVal
  | bool : Bool → JSVal
  | num : Int → JSVal
  | str : String → JSVal
  | arr : List JSVal → JSVal
  | obj : List (String × JSVal) → JSVal

/-- JavaScript truthiness, which `if (this.error)` in `initialize` uses:
`null`, `false`, `0` and `""` are falsy; everything else is truthy. -/
def truthy : JSVal → Bool
  | .null => false
  | .bool b => b
  | .num n => n != 0
  | .str s => s != ""
  | .arr _ => true
  | .obj _ => true

/-- The `RequestCancelled` LSP error code imported from
`common/lsp_error_codes` (the standard JSON-RPC value). -/
def RequestCancelled : Int := -32800

/-- The synthesized error object `{ code: RequestCancelled, message: 'Server closed' }`
that `handleRequest` pre-installs in its response. -/
def serverClosedError : JSVal :=
  .obj [(("code"), .num RequestCancelled), (("message"), .str ("Server closed"))]

/-- The `ResponseMessage` shape returned by `handleRequest`. -/
structure ResponseMessage where
  jsonrpc : String
  id : JSVal
  result : Option JSVal := none
  error : Option JSVal := none

/-- An `LspRequest` as consumed by `handleRequest`: a method, a params value
(array or single value), and the notification flag. -/
structure LspRequest where
  method : String
  params : JSVal
  isNotification : Bool

/-- The two connection strategies: `connect()` dials out, while
`awaitServerConnection()` listens and accepts one inbound connection. -/
inductive Strategy where
  | dial : Strategy
  | listen : Strategy

/-- The pending connection attempt held in `this.connectingPromise`:
a `Cancelable` identified by a fresh id, remembering the port it was
started against and which strategy produced it. -/
structure Attempt where
  aid : Nat
  port : Int
  strategy : Strategy

/-- Log levels of the `Logger` collaborator (`debug/info/log/warn/error`). -/
inductive LogLevel where
  | debug : LogLevel
  | info : LogLevel
  | log : LogLevel
  | warn : LogLevel
  | error : LogLevel

/-- Observable side effects of the proxy's methods, in program order. -/
inductive Effect where
  | socketConnect : Int → String → Effect
  | serverListen : Int → Effect
  | cancelAttempt : Nat → Option JSVal → Effect
  | sendReq : String → List JSVal → Effect
  | sendNotif : String → List JSVal → Effect
  | emit : String → Effect
  | logMsg : LogLevel → String → Effect
  | closeSocket : Effect

/-- The mutable fields of a `LanguageServerProxy` instance.  Channels
(`MessageConnection`s) are identified by numeric ids; `nextAttemptId`
supplies fresh ids for newly created `Cancelable` attempts. -/
structure ProxyState where
  error : JSVal := .null
  initialized : Bool := false
  clientConnection : Option Nat := none
  closed : Bool := false
  targetHost : String := ("localhost")
  targetPort : Int := 0
  connectingPromise : Option Attempt := none
  nextAttemptId : Nat := 0

/-- What a call to `connect()`/`awaitServerConnection()` hands back to its
caller: either a promise already resolved with the existing channel, or the
promise of the (shared) pending attempt identified by its id. -/
inductive ConnectResult where
  | existing : Nat → ConnectResult
  | attemptOf : Nat → ConnectResult

/-- The eventual outcome of an attempt's promise. -/
inductive PromiseOutcome where
  | ok : Nat → PromiseOutcome
  | err : JSVal → PromiseOutcome

/-- Environment resolving the `await`ed promises: the outcome of each
pending attempt's promise, and the backend's answer to each forwarded
`sendRequest`. -/
structure Env where
  attemptOutcome : Nat → PromiseOutcome
  sendRequestOutcome : String → List JSVal → Except JSVal JSVal

/-- `connect()`: if `this.clientConnection` exists, return it resolved (no
I/O, no state change); else if `this.connectingPromise` exists, return that
shared promise; else create a fresh `Cancelable` that dials
`(targetPort, targetHost)` and store it in the pending slot. -/
def connect (s : ProxyState) : ProxyState × ConnectResult × List Effect :=
  match s.clientConnection with
  | some c => (s, .existing c, [])
  | none =>
    match s.connectingPromise with
    | some a => (s, .attemptOf a.aid, [])
    | none =>
      let a : Attempt := { aid := s.nextAttemptId, port := s.targetPort, strategy := .dial }
      ({ s with connectingPromise := some a, nextAttemptId := s.nextAttemptId + 1 },
       .attemptOf a.aid,
       [.socketConnect s.targetPort s.targetHost])

/-- `awaitServerConnection()`: if `this.connectingPromise` exists, return
that shared promise (the guard against 'port already in use'); else create
a fresh `Cancelable` that listens on `targetPort` and store it in the
pending slot.  Note: unlike `connect()`, the existing `clientConnection`
is never consulted. -/
def awaitServerConnection (s : ProxyState) : ProxyState × ConnectResult × List Effect :=
  match s.connectingPromise with
  | some a => (s, .attemptOf a.aid, [])
  | none =>
    let a : Attempt := { aid := s.nextAttemptId, port := s.targetPort, strategy := .listen }
    ({ s with connectingPromise := some a, nextAttemptId := s.nextAttemptId + 1 },
     .attemptOf a.aid,
     [.serverListen s.targetPort])

/-- Await the promise returned by a connect entry point, using the
environment for the outcome of a still-pending attempt. -/
def awaitResult (r : ConnectResult) (env : Env) : Except JSVal Nat :=
  match r with
  | .existing c => .ok c
  | .attemptOf aid =>
    match env.attemptOutcome aid with
    | .ok c => .ok c
    | .err e => .error e

/-- `Array.isArray(request.params) ? request.params : [request.params]`. -/
def requestParams : JSVal → List JSVal
  | .arr xs => xs
  | v => [v]

/-- `handleRequest(request)`: builds a response pre-initialized with the
synthesized `Server closed` error; if closed, re-assigns that error and
returns; otherwise awaits `connect()` (a rejection there propagates — it is
outside the try/catch), then either fire-and-forget `sendNotification` or
`sendRequest` with only the latter's rejection caught into `response.error`.
Returns the post-state, the effects performed, and either the resolved
`ResponseMessage` or the value the returned promise rejects with. -/
def handleRequest (s : ProxyState) (env : Env) (request : LspRequest) :
    ProxyState × List Effect × Except JSVal ResponseMessage :=
  let response : ResponseMessage :=
    { jsonrpc := (""), id := .null, error := some serverClosedError }
  if s.closed then
    (s, [], .ok { response with error := some serverClosedError })
  else
    let (s1, cr, effs) := connect s
    match awaitResult cr env with
    | .error e => (s1, effs, .error e)
    | .ok _ =>
      let ps := requestParams request.params
      if !request.isNotification then
        match env.sendRequestOutcome request.method ps with
        | .ok r =>
          (s1, effs ++ [.sendReq request.method ps], .ok { response with result := some r })
        | .error e =>
          (s1, effs ++ [.sendReq request.method ps], .ok { response with error := some e })
      else
        (s1, effs ++ [.sendNotif request.method ps], .ok response)

/-- A `WorkspaceFolder` as passed to `initialize`. -/
structure WorkspaceFolder where
  uri : String
  name : String

/-- The JSON value a workspace folder is serialized as inside the params. -/
def WorkspaceFolder.toJS (w : WorkspaceFolder) : JSVal :=
  .obj [(("uri"), .str w.uri), (("name"), .str w.name)]

/-- Modelled from the spec: Node's `fileURLToPath` (imported from the `url`
module, not part of the sources) turns a `file://` URI into a filesystem
path — per Scenario B, `file:///proj` maps to `/proj`.  Modelled as
stripping the `file://` scheme prefix. -/
def fileURLToPath (uri : String) : String :=
  if uri.data.take 7 = ("file://").data then String.mk (uri.data.drop 7) else uri

/-- The params object built by `initialize`: `processId: null`, the
workspace folders, `rootUri` (the first folder's uri), the capabilities,
`rootPath` derived via `fileURLToPath`, and — only when `initOptions` is
provided — `initializationOptions` spread in. -/
def initializeParams (clientCapabilities : JSVal) (workspaceFolders : List WorkspaceFolder)
    (rootUri : String) (initOptions : Option JSVal) : JSVal :=
  let base := [(("processId"), JSVal.null),
               (("workspaceFolders"), JSVal.arr (workspaceFolders.map WorkspaceFolder.toJS)),
               (("rootUri"), JSVal.str rootUri),
               (("capabilities"), clientCapabilities),
               (("rootPath"), JSVal.str (fileURLToPath rootUri))]
  match initOptions with
  | some o => .obj (base ++ [(("initializationOptions"), o)])
  | none => .obj base

/-- Field lookup in a JSON object value. -/
def jsLookup (v : JSVal) (k : String) : Option JSVal :=
  match v with
  | .obj fields => List.lookup k fields
  | _ => none

/-- The source method `initialize(clientCapabilities, workspaceFolders,
initOptions?)` (renamed: `initialize` is a Lean keyword).  Throws the sticky
error if `this.error` is truthy, else awaits `connect()`, sends the
`initialize` request with `initializeParams`, and on success logs, sends the
`initialized` notification (empty object param), sets `this.initialized`
and returns the result; a rejection of the request propagates. -/
def initializeRequest (s : ProxyState) (env : Env) (clientCapabilities : JSVal)
    (workspaceFolders : List WorkspaceFolder) (initOptions : Option JSVal) :
    ProxyState × List Effect × Except JSVal JSVal :=
  if truthy s.error then
    (s, [], .error s.error)
  else
    let (s1, cr, effs) := connect s
    match awaitResult cr env with
    | .error e => (s1, effs, .error e)
    | .ok _ =>
      match workspaceFolders with
      | [] => (s1, effs, .error (.str ("TypeError: workspaceFolders is empty")))
      | w :: _ =>
        let rootUri := w.uri
        let ps := initializeParams clientCapabilities workspaceFolders rootUri initOptions
        match env.sendRequestOutcome ("initialize") [ps] with
        | .error e => (s1, effs ++ [.sendReq ("initialize") [ps]], .error e)
        | .ok r =>
          ({ s1 with initialized := true },
           effs ++ [.sendReq ("initialize") [ps],
                    .logMsg .info (("initialized at ") ++ rootUri),
                    .sendNotif ("initialized") [.obj []]],
           .ok r)

/-- `shutdown()`: awaits `connect()`, logs, sends the `shutdown` request and
returns its result (a rejection propagates). -/
def shutdown (s : ProxyState) (env : Env) :
    ProxyState × List Effect × Except JSVal JSVal :=
  let (s1, cr, effs) := connect s
  match awaitResult cr env with
  | .error e => (s1, effs, .error e)
  | .ok _ =>
    let effs2 := effs ++ [.logMsg .info (("sending shutdown request")), .sendReq ("shutdown") []]
    match env.sendRequestOutcome ("shutdown") [] with
    | .error e => (s1, effs2, .error e)
    | .ok r => (s1, effs2, .ok r)

/-- `exit()`: sets `this.closed = true` first; then, if a channel exists,
fire-and-forget sends `shutdown` (request) and `exit` (notification) over
it, with log lines; finally emits the `exit` event. -/
def exit (s : ProxyState) : ProxyState × List Effect :=
  let s1 := { s with closed := true }
  match s1.clientConnection with
  | some _ =>
    (s1, [.logMsg .info (("sending `shutdown` request to language server.")),
          .sendReq ("shutdown") [],
          .logMsg .info (("sending `exit` notification to language server.")),
          .sendNotif ("exit") [],
          .emit ("exit")])
  | none => (s1, [.emit ("exit")])

/-- The private `onSocketClosed()` handler, run when the channel's socket
closes: clears the channel and the pending-attempt slot and emits `close`. -/
def onSocketClosed (s : ProxyState) : ProxyState × List Effect :=
  ({ s with clientConnection := none, connectingPromise := none }, [.emit ("close")])

/-- `changePort(port)`: only if the port differs, update `targetPort` and,
if an attempt is pending, cancel it (default reason) and clear the slot. -/
def changePort (s : ProxyState) (port : Int) : ProxyState × List Effect :=
  if port != s.targetPort then
    let s1 := { s with targetPort := port }
    match s1.connectingPromise with
    | some a => ({ s1 with connectingPromise := none }, [.cancelAttempt a.aid none])
    | none => (s1, [])
  else (s, [])

/-- `setError(error)`: if an attempt is pending, cancel it with `error` and
clear the slot; then record `error` as the sticky fatal error. -/
def setError (s : ProxyState) (e : JSVal) : ProxyState × List Effect :=
  match s.connectingPromise with
  | some a => ({ s with connectingPromise := none, error := e }, [.cancelAttempt a.aid (some e)])
  | none => ({ s with error := e }, [])

/-- The four severities of an inbound `logMessage` notification. -/
inductive MessageType where
  | error : MessageType
  | warning : MessageType
  | info : MessageType
  | log : MessageType

/-- The handler installed by `registerOnNotificationHandler` for inbound
`logMessage` notifications: severity `Log` always goes to `debug`; the
other three go one level down unless `lspOptions.verbose` (read at call
time) is set. -/
def logMessageHandler (verbose : Bool) (t : MessageType) (message : String) : List Effect :=
  match t with
  | .log => [.logMsg .debug message]
  | .info => if verbose then [.logMsg .info message] else [.logMsg .debug message]
  | .warning => if verbose then [.logMsg .warn message] else [.logMsg .log message]
  | .error => if verbose then [.logMsg .error message] else [.logMsg .warn message]

/-- Resolution of a pending dial attempt (`connect()`'s socket `connect`
callback): wrap the socket in a channel, store it in `clientConnection`,
emit `connect`.  The pending slot is NOT cleared on success. -/
def resolveDial (s : ProxyState) (c : Nat) : ProxyState × List Effect :=
  ({ s with clientConnection := some c }, [.emit ("connect")])

/-- Resolution of a pending listen attempt (`awaitServerConnection()`'s
accept callback): reset `this.initialized`, close the listening server,
emit `connect`, store the accepted channel.  The pending slot is NOT
cleared on success. -/
def resolveAccept (s : ProxyState) (c : Nat) : ProxyState × List Effect :=
  ({ s with initialized := false, clientConnection := some c }, [.emit ("connect")])

/-- The synchronous state transitions of the proxy, gathered as one step
relation (used to reason about which operation can clear which field). -/
inductive ProxyOp where
  | exitOp : ProxyOp
  | changePortOp : Int → ProxyOp
  | setErrorOp : JSVal → ProxyOp
  | connectOp : ProxyOp
  | awaitServerOp : ProxyOp
  | socketClosedOp : ProxyOp
  | resolveDialOp : Nat → ProxyOp
  | resolveAcceptOp : Nat → ProxyOp

/-- One synchronous state transition of the proxy. -/
def step (op : ProxyOp) (s : ProxyState) : ProxyState × List Effect :=
  match op with
  | .exitOp => exit s
  | .changePortOp p => changePort s p
  | .setErrorOp e => setError s e
  | .connectOp => ((connect s).1, (connect s).2.2)
  | .awaitServerOp => ((awaitServerConnection s).1, (awaitServerConnection s).2.2)
  | .socketClosedOp => onSocketClosed s
  | .resolveDialOp c => resolveDial s c
  | .resolveAcceptOp c => resolveAccept s c

/-! ## Theorems -/

/-- C8: for every inbound log-message notification, `log` severity always
maps to the debug level regardless of verbosity; with verbose off, info
maps to debug, warning to the general log level and error to warn; with
verbose on, info maps to info, warning to warn and error to error. -/
theorem logMessage_severity_mapping :
    ∀ m : String,
      logMessageHandler true MessageType.log m = [Effect.logMsg LogLevel.debug m] ∧
      logMessageHandler false MessageType.log m = [Effect.logMsg LogLevel.debug m] ∧
      logMessageHandler false MessageType.info m = [Effect.logMsg LogLevel.debug m] ∧
      logMessageHandler false MessageType.warning m = [Effect.logMsg LogLevel.log m] ∧
      logMessageHandler false MessageType.error m = [Effect.logMsg LogLevel.warn m] ∧
      logMessageHandler true MessageType.info m = [Effect.logMsg LogLevel.info m] ∧
      logMessageHandler true MessageType.warning m = [Effect.logMsg LogLevel.warn m] ∧
      logMessageHandler true MessageType.error m = [Effect.logMsg LogLevel.error m] := by
  intro m
  exact ⟨rfl, rfl, rfl, rfl, rfl, rfl, rfl, rfl⟩

/-- C9: `exit()` sets `closed` to true, then — only if a channel exists —
sends a `shutdown` request followed by an `exit` notification over it
(results ignored), and finally emits the `exit` event; when never connected
it still sets `closed` and emits the event; and it is idempotent on the
proxy state. -/
theorem exit_behavior :
    ∀ s : ProxyState,
      (exit s).1 = { s with closed := true } ∧
      (exit s).1.closed = true ∧
      (exit s).2 =
        (match s.clientConnection with
         | some _ =>
             [Effect.logMsg LogLevel.info (("sending `shutdown` request to language server.")),
              Effect.sendReq ("shutdown") [],
              Effect.logMsg LogLevel.info (("sending `exit` notification to language server.")),
              Effect.sendNotif ("exit") [],
              Effect.emit ("exit")]
         | none => [Effect.emit ("exit")]) ∧
      (exit (exit s).1).1 = (exit s).1 := by
  intro s
  cases h : s.clientConnection <;> simp [exit, h]

/-- C10: `exit()` only flips the `closed` flag — the channel reference, the
pending-attempt slot, the target host/port and the sticky error are left
unchanged and no local socket close is performed — and across all of the
proxy's state transitions, only the socket-close handler ever clears the
channel reference. -/
theorem exit_frame_only_closed :
    (∀ s : ProxyState,
       (step ProxyOp.exitOp s).1 = { s with closed := true } ∧
       (step ProxyOp.exitOp s).1.clientConnection = s.clientConnection ∧
       (step ProxyOp.exitOp s).1.connectingPromise = s.connectingPromise ∧
       (step ProxyOp.exitOp s).1.targetHost = s.targetHost ∧
       (step ProxyOp.exitOp s).1.targetPort = s.targetPort ∧
       (step ProxyOp.exitOp s).1.error = s.error ∧
       Effect.closeSocket ∉ (step ProxyOp.exitOp s).2) ∧
    (∀ (s : ProxyState) (op : ProxyOp),
       (step op s).1.clientConnection = none →
       s.clientConnection = none ∨ op = ProxyOp.socketClosedOp) := by
  constructor
  · intro s
    cases h : s.clientConnection <;> simp [step, exit, h]
  · intro s op h
    cases op with
    | exitOp =>
      left
      cases hc : s.clientConnection
      · rfl
      · simp [step, exit, hc] at h
    | changePortOp p =>
      left
      simp only [step, changePort] at h
      split at h
      · split at h <;> simpa using h
      · simpa using h
    | setErrorOp e =>
      left
      simp only [step, setError] at h
      split at h <;> simpa using h
    | connectOp =>
      left
      cases hc : s.clientConnection
      · rfl
      · simp only [step, connect, hc] at h
        simp at h
    | awaitServerOp =>
      left
      simp only [step, awaitServerConnection] at h
      split at h <;> simpa using h
    | socketClosedOp => right; rfl
    | resolveDialOp c => simp [step, resolveDial] at h
    | resolveAcceptOp c => simp [step, resolveAccept] at h

/-- Witness for `exit_frame_only_closed`: the channel-clearing implication
at a concrete disconnected state and the `exit` operation. -/
theorem exit_frame_only_closed_witness :
    (step ProxyOp.exitOp {}).1.clientConnection = none ∧
    (({} : ProxyState).clientConnection = none ∨ ProxyOp.exitOp = ProxyOp.socketClosedOp) :=
  ⟨rfl, exit_frame_only_closed.2 {} ProxyOp.exitOp rfl⟩

/-- C5: `changePort(newPort)` with a differing port and a pending attempt
cancels that attempt (default reason), clears the pending slot, updates the
target port, and — when no channel exists — the next `connect()` dials the
new port and the freshly created attempt is bound to it. -/
theorem changePort_cancels_and_redials (s : ProxyState) (p : Int) (a : Attempt)
    (hp : p ≠ s.targetPort) (ha : s.connectingPromise = some a) :
    (changePort s p).1.connectingPromise = none ∧
    (changePort s p).1.targetPort = p ∧
    (changePort s p).2 = [Effect.cancelAttempt a.aid none] ∧
    (s.clientConnection = none →
      (connect (changePort s p).1).2.2 = [Effect.socketConnect p s.targetHost] ∧
      ∃ a2 : Attempt,
        (connect (changePort s p).1).1.connectingPromise = some a2 ∧ a2.port = p) := by
  have hbne : (p != s.targetPort) = true := bne_iff_ne.mpr hp
  refine ⟨?_, ?_, ?_, ?_⟩ <;>
    simp [changePort, hbne, ha, connect]
  intro hcc
  simp [hcc]

/-- The proxy state used to witness `changePort_cancels_and_redials`:
a dial attempt towards port 1 is pending. -/
def pendingDialState : ProxyState :=
  { targetPort := 1,
    connectingPromise := some { aid := 0, port := 1, strategy := Strategy.dial },
    nextAttemptId := 1 }

/-- Witness for `changePort_cancels_and_redials` at port 2 on
`pendingDialState`. -/
theorem changePort_cancels_and_redials_witness :
    ((2 : Int) ≠ pendingDialState.targetPort) ∧
    pendingDialState.connectingPromise = some { aid := 0, port := 1, strategy := Strategy.dial } ∧
    ((changePort pendingDialState 2).1.connectingPromise = none ∧
     (changePort pendingDialState 2).1.targetPort = 2 ∧
     (changePort pendingDialState 2).2 = [Effect.cancelAttempt 0 none] ∧
     (pendingDialState.clientConnection = none →
       (connect (changePort pendingDialState 2).1).2.2 =
         [Effect.socketConnect 2 pendingDialState.targetHost] ∧
       ∃ a2 : Attempt,
         (connect (changePort pendingDialState 2).1).1.connectingPromise = some a2 ∧
         a2.port = 2)) :=
  ⟨by decide, rfl,
   changePort_cancels_and_redials pendingDialState 2
     { aid := 0, port := 1, strategy := Strategy.dial } (by decide) rfl⟩

/-- C3 (amended): once `closed = true`, `handleRequest` resolves
immediately with the synthesized `{RequestCancelled, 'Server closed'}`
error, no result, no effects and no state change. -/
theorem handleRequest_closed_immediate (s : ProxyState) (env : Env) (r : LspRequest)
    (h : s.closed = true) :
    handleRequest s env r =
      (s, [], Except.ok { jsonrpc := (""), id := JSVal.null, result := none,
                          error := some serverClosedError }) := by
  simp [handleRequest, h]

/-- The state of a freshly constructed proxy after `exit()`. -/
def exitedState : ProxyState := (exit {}).1

/-- Environment whose attempt promises and requests all succeed trivially. -/
def quietEnv : Env :=
  { attemptOutcome := fun _ => PromiseOutcome.ok 1,
    sendRequestOutcome := fun _ _ => Except.ok JSVal.null }

/-- Witness for `handleRequest_closed_immediate` on `exitedState`. -/
theorem handleRequest_closed_immediate_witness :
    exitedState.closed = true ∧
    handleRequest exitedState quietEnv
        { method := ("foo"), params := JSVal.null, isNotification := false } =
      (exitedState, [], Except.ok { jsonrpc := (""), id := JSVal.null, result := none,
                                    error := some serverClosedError }) :=
  ⟨rfl, handleRequest_closed_immediate exitedState quietEnv
     { method := ("foo"), params := JSVal.null, isNotification := false } rfl⟩

/-- Counterexample to C3 as stated: after `exit()` on a never-connected
proxy (so `closed = true`), calling `connect()` — which `initialize`,
`shutdown` and direct callers still invoke — creates a brand-new connection
attempt and performs a socket dial, because `connect()` never consults the
`closed` flag. -/
theorem closed_proxy_still_dials :
    exitedState.closed = true ∧
    exitedState.clientConnection = none ∧
    exitedState.connectingPromise = none ∧
    (connect exitedState).1.connectingPromise =
      some { aid := 0, port := 0, strategy := Strategy.dial } ∧
    (connect exitedState).2.2 = [Effect.socketConnect 0 (("localhost"))] :=
  ⟨rfl, rfl, rfl, rfl, rfl⟩

/-- C1 (amended): while the proxy is not closed, if the awaited `connect()`
promise resolves, `handleRequest` never rejects — a transport-level failure
of the forwarded `sendRequest` is returned inside the Response's `error`
field — but if the awaited `connect()` promise rejects, that rejection
propagates out of `handleRequest` unchanged. -/
theorem handleRequest_raise_boundary (s : ProxyState) (env : Env) (r : LspRequest)
    (hnc : s.closed = false) :
    (∀ c : Nat, awaitResult (connect s).2.1 env = Except.ok c →
       (∃ resp : ResponseMessage, (handleRequest s env r).2.2 = Except.ok resp) ∧
       (r.isNotification = false →
         ∀ e : JSVal,
           env.sendRequestOutcome r.method (requestParams r.params) = Except.error e →
           (handleRequest s env r).2.2 = Except.ok
             { jsonrpc := (""), id := JSVal.null, result := none, error := some e })) ∧
    (∀ e : JSVal, awaitResult (connect s).2.1 env = Except.error e →
       (handleRequest s env r).2.2 = Except.error e) := by
  rcases hc : connect s with ⟨s1, cr, effs⟩
  constructor
  · intro c hok
    simp only [hc] at hok
    constructor
    · cases hsr : env.sendRequestOutcome r.method (requestParams r.params) <;>
        cases hn : r.isNotification <;>
        simp [handleRequest, hnc, hc, hok, hsr, hn]
    · intro hnot e he
      simp [handleRequest, hnc, hc, hok, hnot, he]
  · intro e herr
    simp only [hc] at herr
    simp [handleRequest, hnc, hc, herr]

/-- A fresh (not closed, never connected) proxy state. -/
def freshState : ProxyState := {}

/-- Environment in which the pending attempt's promise rejects (as happens
when `changePort`/`setError` cancel it, or when the passive listen fails). -/
def rejectingEnv : Env :=
  { attemptOutcome := fun _ => PromiseOutcome.err (JSVal.str ("Cancelled")),
    sendRequestOutcome := fun _ _ => Except.error JSVal.null }

/-- Environment in which the connection resolves to channel 1 and the
backend rejects every forwarded request with the string error `boom`. -/
def boomEnv : Env :=
  { attemptOutcome := fun _ => PromiseOutcome.ok 1,
    sendRequestOutcome := fun _ _ => Except.error (JSVal.str ("boom")) }

/-- The sample request `{method: 'foo', params: [1, 2]}`. -/
def fooRequest : LspRequest :=
  { method := ("foo"), params := JSVal.arr [JSVal.num 1, JSVal.num 2],
    isNotification := false }

/-- Witness for `handleRequest_raise_boundary`: on a fresh proxy whose
connect attempt resolves, a rejected forwarded request comes back inside
the Response's `error` field. -/
theorem handleRequest_raise_boundary_witness :
    freshState.closed = false ∧
    awaitResult (connect freshState).2.1 boomEnv = Except.ok 1 ∧
    fooRequest.isNotification = false ∧
    boomEnv.sendRequestOutcome fooRequest.method (requestParams fooRequest.params) =
      Except.error (JSVal.str ("boom")) ∧
    (handleRequest freshState boomEnv fooRequest).2.2 = Except.ok
      { jsonrpc := (""), id := JSVal.null, result := none,
        error := some (JSVal.str ("boom")) } :=
  ⟨rfl, rfl, rfl, rfl,
   ((handleRequest_raise_boundary freshState boomEnv fooRequest rfl).1 1 rfl).2 rfl
     (JSVal.str ("boom")) rfl⟩

/-- Counterexample to C1 as stated: on a not-closed proxy whose pending
connect attempt rejects (e.g. it was cancelled), `handleRequest` does not
return a Response with `error` set — its promise rejects with the connect
failure, because `await this.connect()` sits outside the try/catch. -/
theorem handleRequest_rejects_on_connect_failure :
    freshState.closed = false ∧
    (handleRequest freshState rejectingEnv fooRequest).2.2 =
      Except.error (JSVal.str ("Cancelled")) :=
  ⟨rfl, rfl⟩

/-- Environment in which the connection resolves to channel 1 and the
backend answers every request with the result `42`. -/
def resultEnv : Env :=
  { attemptOutcome := fun _ => PromiseOutcome.ok 1,
    sendRequestOutcome := fun _ _ => Except.ok (JSVal.num 42) }

/-- C2 (code bug): on a not-closed proxy, a successful request returns a
Response carrying BOTH the result (42) and the pre-initialized synthesized
error `{RequestCancelled, 'Server closed'}` — the `error` field installed
at the top of `handleRequest` is never cleared — and a forwarded
notification likewise returns that synthesized error (with no result)
instead of a Response with neither field. -/
theorem handleRequest_success_sets_both_fields :
    (handleRequest freshState resultEnv fooRequest).2.2 =
      Except.ok { jsonrpc := (""), id := JSVal.null,
                  result := some (JSVal.num 42), error := some serverClosedError } ∧
    (handleRequest freshState resultEnv { fooRequest with isNotification := true }).2.2 =
      Except.ok { jsonrpc := (""), id := JSVal.null,
                  result := none, error := some serverClosedError } :=
  ⟨rfl, rfl⟩

/-- C6 (amended): `setError(err)` records `err` as the sticky error and, if
an attempt is pending, cancels it with `err` and clears the slot; when
`err` is truthy, every subsequent `initialize` call fails immediately with
exactly that error, performing no effects (no connection attempt). -/
theorem setError_sticky (s : ProxyState) (e : JSVal) (env : Env) (caps : JSVal)
    (ws : List WorkspaceFolder) (opts : Option JSVal) :
    (setError s e).1.error = e ∧
    (∀ a : Attempt, s.connectingPromise = some a →
       (setError s e).1.connectingPromise = none ∧
       (setError s e).2 = [Effect.cancelAttempt a.aid (some e)]) ∧
    (truthy e = true →
       initializeRequest (setError s e).1 env caps ws opts =
         ((setError s e).1, [], Except.error e)) := by
  have herr : (setError s e).1.error = e := by
    cases h : s.connectingPromise <;> simp [setError, h]
  refine ⟨herr, ?_, ?_⟩
  · intro a ha
    simp [setError, ha]
  · intro ht
    simp [initializeRequest, herr, ht]

/-- The truthy error value used in the `setError_sticky` witness. -/
def fatalErr : JSVal := JSVal.str ("fatal")

/-- Witness for `setError_sticky`: a truthy error poisons a proxy with a
pending dial attempt; the next `initialize` fails with it immediately. -/
theorem setError_sticky_witness :
    pendingDialState.connectingPromise =
      some { aid := 0, port := 1, strategy := Strategy.dial } ∧
    truthy fatalErr = true ∧
    (setError pendingDialState fatalErr).1.error = fatalErr ∧
    (setError pendingDialState fatalErr).1.connectingPromise = none ∧
    (setError pendingDialState fatalErr).2 = [Effect.cancelAttempt 0 (some fatalErr)] ∧
    initializeRequest (setError pendingDialState fatalErr).1 quietEnv (JSVal.obj []) [] none =
      ((setError pendingDialState fatalErr).1, [], Except.error fatalErr) := by
  have h := setError_sticky pendingDialState fatalErr quietEnv (JSVal.obj []) [] none
  have hpend := h.2.1 { aid := 0, port := 1, strategy := Strategy.dial } rfl
  exact ⟨rfl, rfl, h.1, hpend.1, hpend.2, h.2.2 rfl⟩

/-- A proxy poisoned with the falsy error value `0`. -/
def falsySetState : ProxyState := (setError {} (JSVal.num 0)).1

/-- Counterexample to C6 as stated: after `setError(0)` the error is
recorded, yet the next `initialize` does not fail with it — the truthiness
check `if (this.error)` lets it through, it dials the backend (first effect
is a socket connect) and succeeds. -/
theorem setError_falsy_not_sticky :
    falsySetState.error = JSVal.num 0 ∧
    (initializeRequest falsySetState resultEnv (JSVal.obj [])
        [{ uri := ("file:///proj"), name := ("proj") }] none).2.2 =
      Except.ok (JSVal.num 42) ∧
    (initializeRequest falsySetState resultEnv (JSVal.obj [])
        [{ uri := ("file:///proj"), name := ("proj") }] none).2.1.head? =
      some (Effect.socketConnect 0 (("localhost"))) :=
  ⟨rfl, rfl, rfl⟩

/-- C7: with no (truthy) sticky error set, `initialize` sends an
`initialize` request whose params contain `processId: null`, the given
workspace folders, `rootUri` equal to the first folder's uri, the given
capabilities, `rootPath` derived from that uri as a filesystem path, and
`initializationOptions` exactly when `initOptions` is provided; on success
it sends an `initialized` notification and marks the session initialized
before the result is returned (Scenario B: uri `file:///proj` derives root
path `/proj`). -/
theorem initializeRequest_shape (s : ProxyState) (env : Env) (caps : JSVal)
    (w : WorkspaceFolder) (rest : List WorkspaceFolder) (opts : Option JSVal)
    (c : Nat) (r : JSVal)
    (he : truthy s.error = false)
    (hc : awaitResult (connect s).2.1 env = Except.ok c)
    (hr : env.sendRequestOutcome ("initialize")
            [initializeParams caps (w :: rest) w.uri opts] = Except.ok r) :
    jsLookup (initializeParams caps (w :: rest) w.uri opts) ("processId") =
      some JSVal.null ∧
    jsLookup (initializeParams caps (w :: rest) w.uri opts) ("workspaceFolders") =
      some (JSVal.arr ((w :: rest).map WorkspaceFolder.toJS)) ∧
    jsLookup (initializeParams caps (w :: rest) w.uri opts) ("rootUri") =
      some (JSVal.str w.uri) ∧
    jsLookup (initializeParams caps (w :: rest) w.uri opts) ("capabilities") = some caps ∧
    jsLookup (initializeParams caps (w :: rest) w.uri opts) ("rootPath") =
      some (JSVal.str (fileURLToPath w.uri)) ∧
    jsLookup (initializeParams caps (w :: rest) w.uri opts) ("initializationOptions") = opts ∧
    initializeRequest s env caps (w :: rest) opts =
      ({ (connect s).1 with initialized := true },
       (connect s).2.2 ++
         [Effect.sendReq ("initialize") [initializeParams caps (w :: rest) w.uri opts],
          Effect.logMsg LogLevel.info (("initialized at ") ++ w.uri),
          Effect.sendNotif ("initialized") [JSVal.obj []]],
       Except.ok r) ∧
    fileURLToPath (("file:///proj")) = ("/proj") := by
  rcases hcc : connect s with ⟨s1, cr, effs⟩
  simp only [hcc] at hc
  refine ⟨?_, ?_, ?_, ?_, ?_, ?_, ?_, by decide⟩
  · cases opts <;> rfl
  · cases opts <;> rfl
  · cases opts <;> rfl
  · cases opts <;> rfl
  · cases opts <;> rfl
  · cases opts <;> rfl
  · simp [initializeRequest, he, hcc, hc, hr]

/-- The workspace folder of Scenario B. -/
def projFolder : WorkspaceFolder := { uri := ("file:///proj"), name := ("proj") }

/-- Environment for the `initializeRequest_shape` witness: the attempt
resolves to channel 3 and every request is answered with the result `9`. -/
def initEnv : Env :=
  { attemptOutcome := fun _ => PromiseOutcome.ok 3,
    sendRequestOutcome := fun _ _ => Except.ok (JSVal.num 9) }

/-- Witness for `initializeRequest_shape` on a fresh proxy, Scenario B
workspace folder, no init options. -/
theorem initializeRequest_shape_witness :
    truthy freshState.error = false ∧
    awaitResult (connect freshState).2.1 initEnv = Except.ok 3 ∧
    initEnv.sendRequestOutcome ("initialize")
        [initializeParams (JSVal.obj []) [projFolder] projFolder.uri none] =
      Except.ok (JSVal.num 9) ∧
    (jsLookup (initializeParams (JSVal.obj []) [projFolder] projFolder.uri none)
        ("processId") = some JSVal.null ∧
     jsLookup (initializeParams (JSVal.obj []) [projFolder] projFolder.uri none)
        ("workspaceFolders") =
       some (JSVal.arr ([projFolder].map WorkspaceFolder.toJS)) ∧
     jsLookup (initializeParams (JSVal.obj []) [projFolder] projFolder.uri none)
        ("rootUri") = some (JSVal.str projFolder.uri) ∧
     jsLookup (initializeParams (JSVal.obj []) [projFolder] projFolder.uri none)
        ("capabilities") = some (JSVal.obj []) ∧
     jsLookup (initializeParams (JSVal.obj []) [projFolder] projFolder.uri none)
        ("rootPath") = some (JSVal.str (fileURLToPath projFolder.uri)) ∧
     jsLookup (initializeParams (JSVal.obj []) [projFolder] projFolder.uri none)
        ("initializationOptions") = none ∧
     initializeRequest freshState initEnv (JSVal.obj []) [projFolder] none =
       ({ (connect freshState).1 with initialized := true },
        (connect freshState).2.2 ++
          [Effect.sendReq ("initialize")
             [initializeParams (JSVal.obj []) [projFolder] projFolder.uri none],
           Effect.logMsg LogLevel.info (("initialized at ") ++ projFolder.uri),
           Effect.sendNotif ("initialized") [JSVal.obj []]],
        Except.ok (JSVal.num 9)) ∧
     fileURLToPath (("file:///proj")) = ("/proj")) :=
  ⟨rfl, rfl, rfl,
   initializeRequest_shape freshState initEnv (JSVal.obj []) projFolder [] none 3
     (JSVal.num 9) rfl rfl rfl⟩

/-- The two entry points that can start or join a connection attempt. -/
inductive ConnCall where
  | viaConnect : ConnCall
  | viaAwait : ConnCall

/-- N cooperatively-concurrent calls to the connect entry points: each
call runs its synchronous body in turn; the i-th caller receives the i-th
`ConnectResult`. -/
def runCalls : List ConnCall → ProxyState → ProxyState × List ConnectResult × List Effect
  | [], s => (s, [], [])
  | c :: cs, s =>
    let r1 := match c with
      | ConnCall.viaConnect => connect s
      | ConnCall.viaAwait => awaitServerConnection s
    let r2 := runCalls cs r1.1
    (r2.1, r1.2.1 :: r2.2.1, r1.2.2 ++ r2.2.2)

/-- Helper: once an attempt is pending (and no channel exists), further
calls to either entry point return that same attempt and change nothing. -/
theorem runCalls_pending (cs : List ConnCall) (s : ProxyState) (a : Attempt)
    (hch : s.clientConnection = none) (hp : s.connectingPromise = some a) :
    runCalls cs s = (s, cs.map (fun _ => ConnectResult.attemptOf a.aid), []) := by
  induction cs with
  | nil => simp [runCalls]
  | cons c cs ih =>
    cases c <;> simp [runCalls, connect, awaitServerConnection, hch, hp, ih]

/-- C4 (amended): from a disconnected state (no channel, no pending
attempt), any nonempty sequence of cooperatively-concurrent `connect()` /
`awaitServerConnection()` calls creates exactly one attempt, performs
exactly one socket operation (dial or listen, per the first caller's entry
point), and hands every caller the same attempt's promise; and `connect()`
with an existing channel returns that channel with no effects and no state
change. -/
theorem connect_dedup :
    (∀ (s : ProxyState) (c : ConnCall) (cs : List ConnCall),
       s.clientConnection = none → s.connectingPromise = none →
       (runCalls (c :: cs) s).1.nextAttemptId = s.nextAttemptId + 1 ∧
       (runCalls (c :: cs) s).2.1 =
         (c :: cs).map (fun _ => ConnectResult.attemptOf s.nextAttemptId) ∧
       (runCalls (c :: cs) s).2.2 =
         [(match c with
           | ConnCall.viaConnect => Effect.socketConnect s.targetPort s.targetHost
           | ConnCall.viaAwait => Effect.serverListen s.targetPort)]) ∧
    (∀ (s : ProxyState) (ch : Nat), s.clientConnection = some ch →
       connect s = (s, ConnectResult.existing ch, [])) := by
  constructor
  · intro s c cs h1 h2
    cases c with
    | viaConnect =>
      have hrest := runCalls_pending cs
        { s with clientConnection := none,
                 connectingPromise := some ⟨s.nextAttemptId, s.targetPort, Strategy.dial⟩,
                 nextAttemptId := s.nextAttemptId + 1 }
        ⟨s.nextAttemptId, s.targetPort, Strategy.dial⟩ rfl rfl
      simp [runCalls, connect, h1, h2, hrest]
    | viaAwait =>
      have hrest := runCalls_pending cs
        { s with clientConnection := none,
                 connectingPromise := some ⟨s.nextAttemptId, s.targetPort, Strategy.listen⟩,
                 nextAttemptId := s.nextAttemptId + 1 }
        ⟨s.nextAttemptId, s.targetPort, Strategy.listen⟩ rfl rfl
      simp [runCalls, awaitServerConnection, h1, h2, hrest]
  · intro s ch hch
    simp [connect, hch]

/-- Witness for `connect_dedup`: two concurrent `connect()` calls on a
fresh proxy perform one dial and both receive attempt 0's promise. -/
theorem connect_dedup_witness :
    freshState.clientConnection = none ∧
    freshState.connectingPromise = none ∧
    ((runCalls [ConnCall.viaConnect, ConnCall.viaConnect] freshState).1.nextAttemptId = 1 ∧
     (runCalls [ConnCall.viaConnect, ConnCall.viaConnect] freshState).2.1 =
       [ConnectResult.attemptOf 0, ConnectResult.attemptOf 0] ∧
     (runCalls [ConnCall.viaConnect, ConnCall.viaConnect] freshState).2.2 =
       [Effect.socketConnect 0 (("localhost"))]) :=
  ⟨rfl, rfl, connect_dedup.1 freshState ConnCall.viaConnect [ConnCall.viaConnect] rfl rfl⟩

/-- A reachable state with a live channel but an empty pending slot
(e.g. after a successful connect followed by `changePort`). -/
def channelNoPendingState : ProxyState :=
  { clientConnection := some 0, targetPort := 1, nextAttemptId := 1 }

/-- Counterexample to C4 as stated: with an existing channel and an empty
pending slot, `awaitServerConnection()` does not return the existing
channel — it starts a brand-new listen attempt and performs listen I/O,
because it never consults `clientConnection`. -/
theorem awaitServer_ignores_existing_channel :
    channelNoPendingState.clientConnection = some 0 ∧
    channelNoPendingState.connectingPromise = none ∧
    (awaitServerConnection channelNoPendingState).2.1 = ConnectResult.attemptOf 1 ∧
    (awaitServerConnection channelNoPendingState).2.2 = [Effect.serverListen 1] ∧
    (awaitServerConnection channelNoPendingState).1.connectingPromise =
      some { aid := 1, port := 1, strategy := Strategy.listen } :=
  ⟨rfl, rfl, rfl, rfl, rfl⟩

end LspProxy
